import Mathlib

/-!
# Verification of the NicoMate connector-selection engine

This file gives a shallow embedding, in Lean 4, of the requirement-elicitation
and scoring core of the NicoMate repository (`app/core/connector.py`,
class `LLMConnectorSelector`), together with theorems settling the frozen
claims about that code.

Modelling conventions:
* Python floats are modelled as rationals (`ℚ`); every constant appearing in
  the source is an exact decimal, so all arithmetic in the embedded functions
  is exact.
* Python values flowing through the answer dictionary are modelled by the
  sum type `Val` (None / number / string / boolean).
* The per-session answer dictionary `self.answers` is modelled as a function
  `Attr → Option (Val × ℚ)` over the fixed set of attribute keys the engine
  reads and writes; a `some` entry is a dictionary entry `(value, confidence)`.
* Dictionary iteration order does not affect any modelled result (sums and
  disjunctions are commutative, and the lists of critical-mismatch factors
  are only inspected for length and membership), so the embedding iterates
  attributes in a fixed canonical order.
-/

namespace NicoMate

attribute [local semireducible] Rat.mul Rat.add Rat.sub Rat.inv

/-- A Python value as stored in the answers dictionary:
`None`, a number (int or float, modelled as `ℚ`), a string, or a boolean. -/
inductive Val where
  | vnone : Val
  | num : ℚ → Val
  | str : String → Val
  | bool : Bool → Val
deriving DecidableEq, Repr

/-- Python truthiness (`bool(value)`): `None` and zero and the empty string
are falsy, everything else modelled here is truthy. -/
def pyTruthy : Val → Bool
  | .vnone => false
  | .num q => q ≠ 0
  | .str s => s ≠ ""
  | .bool b => b

/-- Is `pat` a contiguous sublist of `l`? -/
def listInfixOf (pat : List Char) : List Char → Bool
  | [] => pat.isEmpty
  | c :: rest => pat.isPrefixOf (c :: rest) || listInfixOf pat rest

/-- Substring test, modelling the Python expression `pat in s`. -/
def strContains (s pat : String) : Bool :=
  listInfixOf pat.data s.data

/-- Upper-casing (`str.upper()`), via the character list. -/
def strUpper (s : String) : String := String.mk (s.data.map Char.toUpper)

/-- Lower-casing (`str.lower()`), via the character list. -/
def strLower (s : String) : String := String.mk (s.data.map Char.toLower)

/-- Whitespace-stripping (`str.strip()` as used by `int()`), via the
character list. -/
def strTrim (s : String) : String :=
  String.mk (((s.data.dropWhile Char.isWhitespace).reverse.dropWhile
    Char.isWhitespace).reverse)

/-- Fuel-indexed replacement of every non-overlapping occurrence of `pat`
(left to right) by `rep`; with `fuel` at least the length of the list this
is Python `str.replace` for a nonempty pattern. -/
def replaceFuel (pat rep : List Char) : ℕ → List Char → List Char
  | _, [] => []
  | 0, l => l
  | fuel + 1, c :: rest =>
    if pat.isPrefixOf (c :: rest) && !pat.isEmpty then
      rep ++ replaceFuel pat rep fuel ((c :: rest).drop pat.length)
    else c :: replaceFuel pat rep fuel rest

/-- Python `s.replace(pat, rep)` for a nonempty pattern. -/
def strReplace (s pat rep : String) : String :=
  String.mk (replaceFuel pat.data rep.data s.data.length s.data)

/-- Python `int(x)` on a finite float: truncation toward zero. -/
def pyIntTrunc (q : ℚ) : ℤ :=
  if 0 ≤ q then q.floor else q.ceil

/-- Python `float(x)` applied to a numeric or boolean value
(`float(True) = 1.0`, `float(False) = 0.0`).  The source raises `TypeError`
or `ValueError` on the remaining cases; those inputs are excluded by the
well-typedness side conditions of the theorems below, and this function
returns 0 there only to stay total. -/
def pyFloatNum : Val → ℚ
  | .num q => q
  | .bool b => if b then 1 else 0
  | _ => 0

/-- Python `max(a, b)`: the second argument only when strictly larger. -/
def pyMax (a b : ℚ) : ℚ := if a < b then b else a

/-- Python `min(a, b)`: the second argument only when strictly smaller. -/
def pyMin (a b : ℚ) : ℚ := if b < a then b else a

/-- `abs(q)` on rationals. -/
def ratAbs (q : ℚ) : ℚ := if q < 0 then -q else q

/-- `abs(n)` on integers. -/
def intAbs (n : ℤ) : ℤ := if n < 0 then -n else n

/-- Is a character an ASCII decimal digit? -/
def isDigitChar (c : Char) : Bool := c.isDigit

/-- Value of a list of decimal digit characters. -/
def digitsToNat (cs : List Char) : ℕ :=
  cs.foldl (fun acc c => 10 * acc + (c.toNat - 48)) 0

/-- A valid Python integer-literal digit run: nonempty digits, with single
underscores allowed strictly between digits (`int("2_6") = 26`). -/
def validDigitRun : List Char → Bool
  | [] => false
  | c :: cs =>
    isDigitChar c &&
      (cs = [] ||
        (match cs with
         | ('_' :: rest) => validDigitRun rest
         | rest => validDigitRun rest))

/-- Python `int(s)` on a string: strip surrounding whitespace, optional
sign, then a digit run with optional single underscores between digits.
Returns `none` where Python raises `ValueError`. -/
def pyParseInt (s : String) : Option ℤ :=
  let t := strTrim s
  let cs := t.data
  let (sign, body) :=
    match cs with
    | ('+' :: rest) => ((1 : ℤ), rest)
    | ('-' :: rest) => ((-1 : ℤ), rest)
    | rest => ((1 : ℤ), rest)
  if validDigitRun body then
    some (sign * (digitsToNat (body.filter isDigitChar) : ℤ))
  else
    none

/-- Python `float(s)` on a string made only of digits and dots (the pitch
branch filters its input down to that alphabet first): valid iff the string
has at least one digit and at most one dot. -/
def pyParseDigitsDots (s : String) : Option ℚ :=
  let cs := s.data
  if cs.any isDigitChar && (cs.filter (fun c => c = '.')).length ≤ 1 then
    let intPart := digitsToNat (cs.takeWhile (fun c => c ≠ '.'))
    let fracDigits := (cs.dropWhile (fun c => c ≠ '.')).filter isDigitChar
    some ((intPart : ℚ) + (digitsToNat fracDigits : ℚ) / (10 : ℚ) ^ fracDigits.length)
  else
    none

/-- Python `==` between two answer values (numbers and booleans compare by
numeric value: `1 == True`; values of unrelated types are unequal;
`None == None` holds). -/
def pyEqVal : Val → Val → Bool
  | .vnone, .vnone => true
  | .num a, .num b => a = b
  | .num a, .bool b => a = (if b then 1 else 0)
  | .bool a, .num b => (if a then (1 : ℚ) else 0) = b
  | .bool a, .bool b => a = b
  | .str a, .str b => a = b
  | _, _ => false

/-- The attribute keys of the answers dictionary that the engine reads or
writes.  (`emi_protection` has no question bound to it, so it carries no
weight in scoring, but it still counts toward `len(self.answers)`.) -/
inductive Attr where
  | connection_types
  | location
  | housing_material
  | mixed_power_signal
  | pin_count
  | height_requirement
  | pitch_size
  | right_angle
  | temp_range
  | max_current
  | wire_gauge
  | emi_protection
deriving DecidableEq, Repr, Fintype

/-- Canonical enumeration of the attribute keys. -/
def allAttrs : List Attr :=
  [.connection_types, .location, .housing_material, .mixed_power_signal,
   .pin_count, .height_requirement, .pitch_size, .right_angle,
   .temp_range, .max_current, .wire_gauge, .emi_protection]

/-- The per-session answers dictionary `self.answers`:
each present key maps to a `(value, confidence)` pair. -/
def Answers : Type := Attr → Option (Val × ℚ)

/-- `len(self.answers)`: the number of keys present. -/
def countAnswered (a : Answers) : ℕ :=
  (allAttrs.filter (fun t => (a t).isSome)).length

/-- One catalog entry (the fields of `self.connectors[name]` that the
modelled code reads). -/
structure ConnectorSpecs where
  ctype : String
  pitch_size : ℚ
  emi_protection : Bool
  housing_material : String
  panel_mount : Bool
  height_range : ℚ × ℚ
  right_angle : Bool
  temp_range : ℚ × ℚ
  max_current : ℚ
  mixed_power_signal : Bool
  location : String
  wire_gauge : List String
  height_options : List ℚ
  valid_pin_counts : List ℤ
  max_pins : ℤ
deriving DecidableEq, Repr

/-- The four connector families of the catalog. -/
inductive Connector where
  | AMM
  | CMM
  | DMM
  | EMM
deriving DecidableEq, Repr, Fintype

/-- Iteration order of `self.connectors` (dict insertion order). -/
def allConnectors : List Connector := [.AMM, .CMM, .DMM, .EMM]

/-- The display name of a connector family. -/
def connectorName : Connector → String
  | .AMM => "AMM"
  | .CMM => "CMM"
  | .DMM => "DMM"
  | .EMM => "EMM"

/-- The static catalog `self.connectors`, transcribed from the source. -/
def specs : Connector → ConnectorSpecs
  | .AMM =>
    { ctype := "nanod"
      pitch_size := 1
      emi_protection := false
      housing_material := "plastic"
      panel_mount := false
      height_range := (4, 4)
      right_angle := false
      temp_range := (-65, 200)
      max_current := 24/5
      mixed_power_signal := false
      location := "internal"
      wire_gauge := ["AWG26", "AWG28", "AWG30"]
      height_options := [4]
      valid_pin_counts := [6, 10, 20, 34, 50]
      max_pins := 50 }
  | .CMM =>
    { ctype := "subd"
      pitch_size := 2
      emi_protection := false
      housing_material := "plastic"
      panel_mount := false
      height_range := (7/2, 8)
      right_angle := true
      temp_range := (-60, 260)
      max_current := 30
      mixed_power_signal := true
      location := "internal"
      wire_gauge := ["AWG12", "AWG14", "AWG16", "AWG18", "AWG20", "AWG22",
                     "AWG24", "AWG26", "AWG28", "AWG30"]
      height_options := [7/2, 4, 11/2, 6, 77/10, 8]
      valid_pin_counts := [2, 3, 4, 5, 6, 7, 8, 9, 10, 11, 12, 13, 14, 15,
        16, 17, 18, 19, 20, 21, 22, 23, 24, 25, 26, 28, 30, 32, 34, 36, 38,
        40, 42, 44, 46, 48, 50, 52, 54, 56, 58, 60, 63, 66, 69, 72, 75, 78,
        81, 84, 87, 90, 93, 96, 99, 102, 105, 108, 111, 114, 117, 120]
      max_pins := 120 }
  | .DMM =>
    { ctype := "microd"
      pitch_size := 2
      emi_protection := true
      housing_material := "metal"
      panel_mount := true
      height_range := (5, 35/2)
      right_angle := true
      temp_range := (-55, 125)
      max_current := 20
      mixed_power_signal := true
      location := "external"
      wire_gauge := ["AWG12", "AWG14", "AWG16", "AWG18", "AWG20", "AWG22",
                     "AWG24", "AWG26", "AWG28", "AWG30"]
      height_options := [5, 31/5, 7, 41/5, 9, 46/5, 193/20, 101/10, 51/5,
        21/2, 211/20, 11, 229/20, 23/2, 119/10, 12, 61/5, 247/20, 25/2,
        64/5, 13, 53/4, 27/2, 137/10, 14, 283/20, 29/2, 73/5, 15, 301/20,
        31/2, 16, 33/2, 17, 35/2]
      valid_pin_counts := [2, 3, 4, 5, 6, 7, 8, 9, 10, 11, 12, 13, 14, 15,
        16, 17, 18, 19, 20, 21, 22, 23, 24, 25, 26, 27, 28, 29, 30, 32, 33,
        34, 36, 38, 39, 40, 42, 44, 45, 46, 48, 50, 51, 52, 54, 56, 57, 58,
        60, 63, 64, 66, 68, 69, 72, 75, 76, 78, 80, 81, 84, 87, 88, 90, 92,
        96, 100, 104, 108, 112, 116, 120]
      max_pins := 120 }
  | .EMM =>
    { ctype := "microd"
      pitch_size := 127/100
      emi_protection := false
      housing_material := "plastic"
      panel_mount := false
      height_range := (23/5, 23/5)
      right_angle := true
      temp_range := (-65, 200)
      max_current := 39/10
      mixed_power_signal := false
      location := "internal"
      wire_gauge := ["AWG24", "AWG26", "AWG28", "AWG30"]
      height_options := [23/5]
      valid_pin_counts := [4, 6, 8, 10, 12, 14, 16, 18, 20, 22, 24, 26, 28,
        30, 32, 34, 36, 38, 40, 42, 44, 46, 48, 50, 52, 54, 56, 58, 60]
      max_pins := 60 }

/-- An elicitation question of `self.all_questions` (the fields the modelled
code reads). -/
structure Question where
  text : String
  weight : ℚ
  attr : Attr
  order : ℕ
deriving DecidableEq, Repr

/-- The static question list `self.all_questions`, transcribed from the
source (texts abridged to their attribute-identifying sentence). -/
def allQuestions : List Question :=
  [ { text := "What connection type do you need? (PCB-Cable,PCB-PCB,Cable-Cable)"
      weight := 25, attr := .connection_types, order := 1 },
    { text := "Do you need this connector on-board or panel mount use?"
      weight := 30, attr := .location, order := 2 },
    { text := "Do you require a Plastic housing or a Metal housing with EMI shielding for this connector?"
      weight := 70, attr := .housing_material, order := 3 },
    { text := "Do you need high power/frequency (>5 Amps) capabilities for this connector?"
      weight := 20, attr := .mixed_power_signal, order := 4 },
    { text := "How many signal contacts/pins do you need?"
      weight := 25, attr := .pin_count, order := 5 },
    { text := "What are your height or space constraints (in mm)?"
      weight := 10, attr := .height_requirement, order := 6 },
    { text := "We offer pitch sizes of 1mm, 1.27mm, and 2mm. Which one best suits your requirement?"
      weight := 70, attr := .pitch_size, order := 7 },
    { text := "Do you need a right-angle connector or a straight connector?"
      weight := 30, attr := .right_angle, order := 8 },
    { text := "What is your operational temperature requirement in Celsius?"
      weight := 30, attr := .temp_range, order := 9 },
    { text := "What is your operational current requirement (in Amps)?"
      weight := 25, attr := .max_current, order := 10 },
    { text := "What is gauge of cable do you need? (AWG24, AWG26...)"
      weight := 25, attr := .wire_gauge, order := 11 } ]

/-- `next(q for q in self.all_questions if q["attribute"] == attr)`:
the weight of the question bound to an attribute, if any.
(`emi_protection` has no question and therefore no weight.) -/
def questionWeight (t : Attr) : Option ℚ :=
  (allQuestions.find? (fun q => q.attr = t)).map (fun q => q.weight)

/-- `normalize_awg_value`: ints, floats and booleans (a Python `bool` is an
`int`) truncate to an integer; a string yields an integer exactly when its
upper-casing contains `AWG` and removing every `AWG` leaves a string that
`int()` accepts; everything else yields `None`. -/
def normalize_awg_value : Val → Option ℤ
  | .num q => some (pyIntTrunc q)
  | .bool b => some (if b then 1 else 0)
  | .str s =>
    let u := strUpper s
    if strContains u "AWG" then pyParseInt (strReplace u "AWG" "") else none
  | .vnone => none

/-- A tag for each distinct critical-mismatch reason string the scorer can
append to `critical_mismatch_factors` (the source only ever inspects the
length of that list and whether it holds the two severe reason strings, so
tags are a faithful model of the message strings). -/
inductive Factor where
  | awgUnsupported
  | heightFar
  | pinExceedsMax
  | pinNotAvailable
  | metalHousingUnavailable
  | mixedPowerUnsupported
  | tempExceedsMax
  | pitchMismatch
deriving DecidableEq, Repr

/-- The result of scoring one answered attribute against one candidate:
the attribute score, whether `critical_mismatch` was set, and the
critical-mismatch factors appended. -/
structure AttrScore where
  score : ℚ
  crit : Bool
  factors : List Factor
deriving DecidableEq, Repr

/-- Python `min(l, key=k)` over a nonempty list: the first element attaining
the minimal key. -/
def pyMinBy {α : Type} (key : α → ℚ) (x : α) (l : List α) : α :=
  l.foldl (fun acc y => if key y < key acc then y else acc) x

/-- The `location` branch of `calculate_connector_score`. -/
def locationScore (cs : ConnectorSpecs) (v : Val) : AttrScore :=
  let lv := match v with | .str s => Val.str (strLower s) | o => o
  let isInternal :=
    match lv with
    | .str s => ["internal", "in box", "on board", "inside", "onboard"].any
        (fun k => strContains s k)
    | _ => false
  let isExternal :=
    match lv with
    | .str s => ["external", "out of box", "panel mount", "outside"].any
        (fun k => strContains s k)
    | _ => false
  if isInternal then ⟨1, false, []⟩
  else if isExternal && cs.panel_mount then ⟨3/2, false, []⟩
  else if isExternal && !cs.panel_mount then ⟨3/10, false, []⟩
  else ⟨1, false, []⟩

/-- The `connection_types` branch of `calculate_connector_score`. -/
def connectionTypesScore (v : Val) : AttrScore :=
  match v with
  | .str s =>
    if s ∈ ["PCB-to-Cable", "Cable-to-PCB", "pcb to cable", "cable to pcb"]
    then ⟨1, false, []⟩ else ⟨4/5, false, []⟩
  | _ => ⟨4/5, false, []⟩

/-- The `right_angle` branch of `calculate_connector_score`. -/
def rightAngleScore (cs : ConnectorSpecs) (v : Val) : AttrScore :=
  if pyTruthy v then
    if cs.right_angle then ⟨1, false, []⟩ else ⟨3/10, false, []⟩
  else ⟨1, false, []⟩

/-- The supported wire gauges of a candidate, normalised to integers. -/
def supportedAwgs (cs : ConnectorSpecs) : List ℤ :=
  cs.wire_gauge.filterMap (fun s => normalize_awg_value (.str s))

/-- The `wire_gauge` branch of `calculate_connector_score`.  When the
required value does not normalise, the source executes `continue` after the
weight was already accumulated, which is the same as contributing an
attribute score of zero with no critical flag. -/
def wireGaugeScore (cs : ConnectorSpecs) (v : Val) : AttrScore :=
  match normalize_awg_value v with
  | none => ⟨0, false, []⟩
  | some g =>
    let supported := supportedAwgs cs
    if supported ≠ [] ∧ g ∈ supported then ⟨1, false, []⟩
    else ⟨0, true, [.awgUnsupported]⟩

/-- The `height_requirement` branch of `calculate_connector_score`.  The
`height_requirement_range` sub-branch is omitted: no code in the repository
ever writes that key, so `answers.get("height_requirement_range", None)` is
always `None`. -/
def heightScore (cs : ConnectorSpecs) (v : Val) : AttrScore :=
  let h := pyFloatNum v
  if cs.height_range.1 ≤ h ∧ h ≤ cs.height_range.2 then ⟨1, false, []⟩
  else
    match cs.height_options with
    | [] => ⟨1/2, false, []⟩
    | o :: rest =>
      let closest := pyMinBy (fun x => ratAbs (x - h)) o rest
      let diff := ratAbs (closest - h)
      let rd := if h > 0 then diff / h else diff
      if rd ≤ 1/10 then ⟨19/20, false, []⟩
      else if rd ≤ 1/5 then ⟨17/20, false, []⟩
      else if rd ≤ 3/10 then ⟨7/10, false, []⟩
      else if rd > 4/5 then ⟨pyMax (2/5) (4/5 - rd/2), true, [.heightFar]⟩
      else ⟨pyMax (2/5) (4/5 - rd/2), false, []⟩

/-- Python `int(value)` for the values the pin-count branch can receive
without raising (numbers and booleans). -/
def pyIntVal : Val → ℤ
  | .num q => pyIntTrunc q
  | .bool b => if b then 1 else 0
  | _ => 0

/-- The `pin_count` branch of `calculate_connector_score`. -/
def pinCountScore (cs : ConnectorSpecs) (v : Val) : AttrScore :=
  let pc := pyIntVal v
  if pc > cs.max_pins then ⟨0, true, [.pinExceedsMax]⟩
  else if pc ∈ cs.valid_pin_counts then ⟨1, false, []⟩
  else
    match cs.valid_pin_counts with
    | [] => ⟨0, false, []⟩
    | p :: rest =>
      let closest := pyMinBy (fun x => ((intAbs (x - pc) : ℤ) : ℚ)) p rest
      let diff := intAbs (closest - pc)
      if diff ≤ 2 then ⟨4/5, false, []⟩
      else if diff ≤ 4 then ⟨1/2, false, []⟩
      else if diff > 10 then ⟨1/5, true, [.pinNotAvailable]⟩
      else ⟨1/5, false, []⟩

/-- The metal synonym list of the `housing_material` scoring branch. -/
def metalSynonyms : List String := ["metal", "metallic", "aluminum", "steel", "alloy"]

/-- The `housing_material` branch of `calculate_connector_score`:
the required value is lower-cased when it is a string, both sides are
normalised into the metal/plastic buckets via `metalSynonyms`, a bucket
match scores 1.2 (1.3 when both are metal), a required-metal mismatch
scores 0.15 and is critical, and a required-plastic mismatch scores 0.5. -/
def housingMaterialScore (cs : ConnectorSpecs) (v : Val) : AttrScore :=
  let rm := match v with | .str s => Val.str (strLower s) | o => o
  let reqNorm : String :=
    match rm with
    | .str s => if s ∈ metalSynonyms then "metal" else "plastic"
    | _ => "plastic"
  let connNorm : String :=
    if strLower cs.housing_material ∈ metalSynonyms then "metal" else "plastic"
  if reqNorm = connNorm then
    if reqNorm = "metal" then ⟨13/10, false, []⟩ else ⟨6/5, false, []⟩
  else if reqNorm = "metal" ∧ connNorm ≠ "metal" then
    ⟨3/20, true, [.metalHousingUnavailable]⟩
  else ⟨1/2, false, []⟩

/-- The `mixed_power_signal` branch of `calculate_connector_score`. -/
def mixedPowerScore (cs : ConnectorSpecs) (v : Val) : AttrScore :=
  let req := pyTruthy v
  if req && cs.mixed_power_signal then ⟨3/2, false, []⟩
  else if req && !cs.mixed_power_signal then ⟨1/10, true, [.mixedPowerUnsupported]⟩
  else ⟨1, false, []⟩

/-- The `temp_range` branch of `calculate_connector_score`. -/
def tempRangeScore (cs : ConnectorSpecs) (v : Val) : AttrScore :=
  let t := pyFloatNum v
  let mn := cs.temp_range.1
  let mx := cs.temp_range.2
  if mn ≤ t ∧ t ≤ mx then ⟨1, false, []⟩
  else if t > mx then
    let d := t - mx
    if d > 50 then ⟨pyMax (3/10) (1 - d/75), true, [.tempExceedsMax]⟩
    else ⟨pyMax (3/10) (1 - d/75), false, []⟩
  else
    let d := mn - t
    ⟨pyMax (3/10) (1 - d/75), false, []⟩

/-- The `pitch_size` branch of `calculate_connector_score`: strings are
filtered down to digits and dots and parsed (defaulting to 0 when `float()`
would raise); a deviation below 0.05 scores the 2.0 bonus, anything else
scores 0.1 and is critical. -/
def pitchSizeScore (cs : ConnectorSpecs) (v : Val) : AttrScore :=
  let pv :=
    match v with
    | .str s =>
      (pyParseDigitsDots (String.mk (s.data.filter
        (fun c => isDigitChar c || c = '.')))).getD 0
    | o => pyFloatNum o
  if ratAbs (pv - cs.pitch_size) < 1/20 then ⟨2, false, []⟩
  else ⟨1/10, true, [.pitchMismatch]⟩

/-- The score of a `max_current` answer: the named branches do not handle
this attribute, so a boolean value reaches the generic boolean branch
(`max_current` is a key of the specs but not a critical attribute) and any
other value falls to the default score of 0.5. -/
def maxCurrentScore (cs : ConnectorSpecs) (v : Val) : AttrScore :=
  match v with
  | .bool b =>
    if pyEqVal (.bool b) (.num cs.max_current) then ⟨1, false, []⟩
    else if b then ⟨3/10, false, []⟩ else ⟨7/10, false, []⟩
  | _ => ⟨1/2, false, []⟩

/-- Dispatch of `calculate_connector_score` on the attribute name.
`emi_protection` never reaches a branch because it has no question, hence
no weight: the loop executes `continue` before computing a score. -/
def attrScoreFor (t : Attr) (cs : ConnectorSpecs) (v : Val) : AttrScore :=
  match t with
  | .location => locationScore cs v
  | .connection_types => connectionTypesScore v
  | .right_angle => rightAngleScore cs v
  | .wire_gauge => wireGaugeScore cs v
  | .height_requirement => heightScore cs v
  | .pin_count => pinCountScore cs v
  | .housing_material => housingMaterialScore cs v
  | .mixed_power_signal => mixedPowerScore cs v
  | .temp_range => tempRangeScore cs v
  | .pitch_size => pitchSizeScore cs v
  | .max_current => maxCurrentScore cs v
  | .emi_protection => ⟨0, false, []⟩

/-- The accumulator of the main loop of `calculate_connector_score`. -/
structure LoopState where
  tw : ℚ
  tws : ℚ
  crit : Bool
  factors : List Factor
deriving DecidableEq, Repr

/-- One iteration of the answer loop of `calculate_connector_score`:
skip `None` values, zero confidences and attributes without a question;
otherwise accumulate the effective weight and the weighted attribute
score together with the critical-mismatch bookkeeping. -/
def loopStep (cs : ConnectorSpecs) (a : Answers) (st : LoopState) (t : Attr) :
    LoopState :=
  match a t with
  | none => st
  | some (v, conf) =>
    if v = .vnone ∨ conf = 0 then st
    else
      match questionWeight t with
      | none => st
      | some w =>
        let aw := w * conf
        let r := attrScoreFor t cs v
        { tw := st.tw + aw
          tws := st.tws + aw * r.score
          crit := st.crit || r.crit
          factors := st.factors ++ r.factors }

/-- The answer loop of `calculate_connector_score` over all attributes. -/
def scoreLoop (cs : ConnectorSpecs) (a : Answers) : LoopState :=
  allAttrs.foldl (loopStep cs a) ⟨0, 0, false, []⟩

/-- The required-side bucketing of the material/location consistency block
of `calculate_connector_score`: the raw answer value (no lower-casing,
unlike `housingMaterialScore` above) is compared against the two-element
list `["metal", "metallic"]`. -/
def gateBucket (v : Val) : String :=
  match v with
  | .str s => if s ∈ ["metal", "metallic"] then "metal" else "plastic"
  | _ => "plastic"

/-- The candidate-side bucketing of the consistency block (candidate
materials in the catalog are exactly `"metal"` or `"plastic"`). -/
def gateBucketConn (cs : ConnectorSpecs) : String :=
  if cs.housing_material ∈ ["metal", "metallic"] then "metal" else "plastic"

/-- `is_panel_mount` in the consistency block: the location answer equals
`"external"` or is a string containing one of the panel-mount keywords. -/
def isPanelMountLoc (lv : Val) : Bool :=
  pyEqVal lv (.str "external") ||
    (match lv with
     | .str s => ["external", "out of box", "panel mount", "outside"].any
         (fun w => strContains (strLower s) w)
     | _ => false)

/-- The material/location consistency block of `calculate_connector_score`:
when both `housing_material` and `location` are present in the answers, a
bucket mismatch between the required and candidate materials
short-circuits the whole score to exactly 0 (modelled as `none`); raw
equality of the two materials earns the 1.1 bonus, or 1.2 when the
required material is `"metal"` and the location indicates panel mounting. -/
def materialBonusGate (cs : ConnectorSpecs) (a : Answers) : Option ℚ :=
  match a .housing_material, a .location with
  | some (rm, _), some (lv, _) =>
    if gateBucket rm ≠ gateBucketConn cs then none
    else if pyEqVal rm (.str cs.housing_material) then
      some (if pyEqVal rm (.str "metal") && isPanelMountLoc lv then 6/5 else 11/10)
    else some 1
  | _, _ => some 1

/-- The critical-mismatch penalty factor: `max(0.5, 0.8 - 0.03 * n)` for `n`
distinct factor entries, halved once more for each of the two severe
reasons present. -/
def critPenaltyFactor (factors : List Factor) : ℚ :=
  let pf := pyMax (1/2) (4/5 - 3/100 * (factors.length : ℚ))
  let pf2 := if factors.contains .mixedPowerUnsupported then pf * (1/2) else pf
  if factors.contains .metalHousingUnavailable then pf2 * (1/2) else pf2

/-- The floor of the final clamp: 20 when fewer than 3 attributes are
answered, 5 otherwise. -/
def minScore (a : Answers) : ℚ :=
  if countAnswered a < 3 then 20 else 5

/-- The value of `final_score` just before the final clamp of
`calculate_connector_score`: `max(10, 100 - mismatch_penalty)`, times the
material bonus, times the critical penalty when a critical mismatch was
flagged. -/
def preClampScore (cs : ConnectorSpecs) (a : Answers) (bonus : ℚ) : ℚ :=
  let st := scoreLoop cs a
  let mismatchPenalty := if st.tw > 0 then (st.tw - st.tws) * 6/5 else 0
  let adjusted := pyMax 10 (100 - mismatchPenalty)
  if st.crit then adjusted * bonus * critPenaltyFactor st.factors
  else adjusted * bonus

/-- `calculate_connector_score(connector_specs, answers)`: the full scoring
function, assembled exactly as in the source: the answer loop, the
short-circuit to 0 for a negligible total weight, the material/location
gate (short-circuit to 0 or bonus), the penalty computation of
`preClampScore`, and the final clamp to `[min_score, 100]`. -/
def calculate_connector_score (cs : ConnectorSpecs) (a : Answers) : ℚ :=
  if (scoreLoop cs a).tw < 1/1000 then 0
  else
    match materialBonusGate cs a with
    | none => 0
    | some bonus => pyMax (minScore a) (pyMin 100 (preClampScore cs a bonus))

/-- Python `max(l)` over a list of floats (`0` for the empty list, as in
`max(other_scores) if other_scores else 0`). -/
def pyMaxQ : List ℚ → ℚ
  | [] => 0
  | x :: r => r.foldl pyMax x

/-- `max(scores, key=lambda x: x[1])` over `self.confidence_scores.items()`:
the first connector (in dict insertion order) attaining the maximal score,
with its score. -/
def bestOf (scores : Connector → ℚ) : Connector × ℚ :=
  [Connector.CMM, Connector.DMM, Connector.EMM].foldl
    (fun acc c => if scores c > acc.2 then (c, scores c) else acc)
    (Connector.AMM, scores Connector.AMM)

/-- `max(other_scores)` for the scores of every connector other than the
best one. -/
def maxOtherScore (scores : Connector → ℚ) (best : Connector) : ℚ :=
  pyMaxQ ((allConnectors.filter (fun c => c ≠ best)).map scores)

/-- Full recomputation of `self.confidence_scores` from the current answers,
as performed after every mutation in `_process_parsed_requirements`. -/
def recomputeAll (a : Answers) : Connector → ℚ :=
  fun c => calculate_connector_score (specs c) a

/-- `if name in message.upper()`: does the opening message mention a
connector family name (as a substring of its upper-casing)? -/
def mentionsConnector (message : String) (c : Connector) : Bool :=
  strContains (strUpper message) (connectorName c)

/-- The stored `self.confidence_scores` at the end of the scoring phase of
`_process_parsed_requirements`: a full recompute followed by a flat `+15.0`
for every connector family name mentioned in the opening message, with no
re-clamping. -/
def updateScoresInitial (a : Answers) (message : String) : Connector → ℚ :=
  fun c => recomputeAll a c + (if mentionsConnector message c then 15 else 0)

/-- The stored `self.confidence_scores` after the score-update loop of
`process_answer`: a candidate whose stored score is `0` while
`housing_material` is answered is skipped (`continue`), keeping its stored
value; every other candidate is recomputed from the current answers. -/
def processAnswerScores (a : Answers) (old : Connector → ℚ) : Connector → ℚ :=
  fun c =>
    if (a .housing_material).isSome ∧ old c = 0 then old c
    else calculate_connector_score (specs c) a

/-- `critical_attributes_met` in `_process_parsed_requirements`: both
`mixed_power_signal` and `housing_material` are present in the answers with
confidence at least 0.7. -/
def criticalMet (a : Answers) : Bool :=
  [Attr.mixed_power_signal, Attr.housing_material].all
    (fun t =>
      match a t with
      | some (_, conf) => decide (7/10 ≤ conf)
      | none => false)

/-- Outcome of one decision point: commit early to a recommendation, or
keep asking questions. -/
inductive Decision where
  | recommend : Connector → ℚ → Decision
  | continueAsking : Decision
deriving DecidableEq, Repr

/-- The early-commit decision taken right after the opening message
(`_process_parsed_requirements`): full recompute, then commit when the
critical attributes are answered with confidence ≥ 0.7, the best (pre-boost)
score is at least 57, and its lead over the runner-up exceeds 25.  The
`+15` name-mention boost is applied to the stored map only after
`best_score` and `max_other_score` have been read, so it does not enter
this decision. -/
def initialDecision (a : Answers) : Decision :=
  let scores := recomputeAll a
  let best := bestOf scores
  let maxOther := maxOtherScore scores best.1
  if criticalMet a ∧ 57 ≤ best.2 ∧ best.2 - maxOther > 25 then
    .recommend best.1 best.2
  else .continueAsking

/-- The early-commit decision taken after a follow-up answer
(`process_answer`): scores updated by `processAnswerScores`, then commit
when the best score is at least 75, the gap exceeds 15, both critical
questions are in the asked set, and at least 3 questions have been asked. -/
def answerDecision (a : Answers) (asked : Finset Attr) (old : Connector → ℚ) :
    Decision :=
  let scores := processAnswerScores a old
  let best := bestOf scores
  let maxOther := maxOtherScore scores best.1
  if 75 ≤ best.2 ∧ best.2 - maxOther > 15 ∧
      Attr.mixed_power_signal ∈ asked ∧ Attr.housing_material ∈ asked ∧
      3 ≤ asked.card then
    .recommend best.1 best.2
  else .continueAsking

/-- Does one answered attribute contribute an entry to
`unconfirmed_features` in `generate_recommendation`? -/
def unconfirmedFeature (cs : ConnectorSpecs) (t : Attr) (v : Val) : Bool :=
  match t with
  | .pin_count =>
    let pc := pyIntVal v
    if pc > cs.max_pins then true
    else decide (pc ∉ cs.valid_pin_counts ∧ pc ≤ cs.max_pins)
  | .pitch_size => decide (ratAbs (pyFloatNum v - cs.pitch_size) > 1/20)
  | .max_current => decide (pyFloatNum v > cs.max_current)
  | .temp_range => decide (pyFloatNum v > cs.temp_range.2)
  | .housing_material => !(pyEqVal v (.str cs.housing_material))
  | .emi_protection => pyTruthy v && !cs.emi_protection
  | .mixed_power_signal => pyTruthy v && !cs.mixed_power_signal
  | .right_angle => !(pyEqVal v (.bool cs.right_angle))
  | .height_requirement =>
    decide (¬ (cs.height_range.1 ≤ pyFloatNum v ∧ pyFloatNum v ≤ cs.height_range.2))
      && !cs.height_options.isEmpty
  | _ => false

/-- `len(unconfirmed_features)`: the number of answered, non-`None`
attributes flagged by the review loop of `generate_recommendation`. -/
def unconfirmedCount (cs : ConnectorSpecs) (a : Answers) : ℕ :=
  (allAttrs.filter (fun t =>
    match a t with
    | some (v, _) => v ≠ .vnone ∧ unconfirmedFeature cs t v
    | none => false)).length

/-- The outcome of `generate_recommendation`: either the contact/escalation
response, or a commitment to a specific connector. -/
inductive RecOutcome where
  | contact : RecOutcome
  | recommend : Connector → RecOutcome
deriving DecidableEq, Repr

/-- The decision skeleton of `generate_recommendation` (with the best
connector and its confidence computed from the stored scores): escalate to
the contact response iff `max_confidence < 22 or
(len(unconfirmed_features) > 3 and max_confidence < 22)`; otherwise commit
to the best connector. -/
def generateRecommendationOutcome (scores : Connector → ℚ) (a : Answers) :
    RecOutcome :=
  let best := bestOf scores
  if best.2 < 22 ∨ (3 < unconfirmedCount (specs best.1) a ∧ best.2 < 22) then
    .contact
  else .recommend best.1

/-- Only numbers and booleans convert with Python `int()`/`float()` without
raising. -/
def isNumlike : Val → Bool
  | .num _ => true
  | .bool _ => true
  | _ => false

/-- A present answer is acceptable when its value is `None` (skipped before
any conversion) or satisfies the given value predicate. -/
def okOpt (p : Val → Bool) : Option (Val × ℚ) → Bool
  | none => true
  | some (v, _) => (v = .vnone) || p v

/-- Well-typedness for the scoring engine: the attributes that the scorer
converts with `float()`/`int()` hold numeric (or boolean) values.  On other
answer sets the source raises instead of returning a score. -/
def wellTypedScore (a : Answers) : Bool :=
  okOpt isNumlike (a .temp_range) && okOpt isNumlike (a .height_requirement) &&
    okOpt isNumlike (a .pin_count)

/-- Well-typedness for `generate_recommendation`, whose review loop
additionally converts `pitch_size` and `max_current` with `float()`. -/
def wellTypedRec (a : Answers) : Bool :=
  wellTypedScore a && okOpt isNumlike (a .max_current) &&
    okOpt isNumlike (a .pitch_size)

/-! ## The question selector -/

/-- The per-session selector state read and mutated by
`select_next_question`: the answers dictionary and the asked-question set. -/
structure SelState where
  answers : Answers
  asked : Finset Attr

/-- Overwrite one key of the answers dictionary. -/
def setAnswer (a : Answers) (t : Attr) (x : Option (Val × ℚ)) : Answers :=
  fun u => if u = t then x else a u

/-- The connection-type synonyms that trigger the PCB-to-PCB skip rule. -/
def pcbToPcbForms : List String := ["pcb-to-pcb", "pcb to pcb", "board to board"]

/-- Is the established connection type one of the PCB-to-PCB forms? -/
def isPcbToPcbState (s : SelState) : Bool :=
  match s.answers .connection_types with
  | some (.str ct, _) => decide (strLower ct ∈ pcbToPcbForms)
  | _ => false

/-- The wire-gauge half of the PCB-to-PCB auto-fill: `wire_gauge` is
answered `(None, 0.0)` and marked asked, only when absent. -/
def pcbWireFill (s : SelState) : SelState :=
  if (s.answers .wire_gauge).isSome then s
  else { answers := setAnswer s.answers .wire_gauge (some (.vnone, 0))
         asked := insert .wire_gauge s.asked }

/-- The location half of the PCB-to-PCB auto-fill. -/
def pcbLocFill (s : SelState) : SelState :=
  if (s.answers .location).isSome then s
  else { answers := setAnswer s.answers .location (some (.str "internal", 19/20))
         asked := insert .location s.asked }

/-- The PCB-to-PCB auto-fill at the top of `select_next_question`: when the
connection type is PCB-to-PCB, `wire_gauge` is answered `(None, 0.0)` and
`location` is answered `("internal", 0.95)` (each only when absent), and
both are marked asked. -/
def pcbAutoFill (s : SelState) : SelState :=
  if isPcbToPcbState s then pcbLocFill (pcbWireFill s)
  else s

/-- The question-choosing part of `select_next_question`, run on the
auto-filled state `s1`: the height-uncertainty override that prioritises
the pitch question (ignoring the skip counts), then the standard
lowest-order selection among questions that are unasked, not skip-marked,
and skipped fewer than 2 times. -/
def selectChoice (skipped : Attr → ℕ) (s1 : SelState) (skipList : List Attr)
    (heightAsked : Bool) : Option Question :=
  let heightUncertain :=
    heightAsked &&
      (match s1.answers .height_requirement with
       | some (_, conf) => decide (conf < 1/2)
       | none => false)
  let pitchOverride :=
    (heightAsked && heightUncertain) ||
      (heightAsked && (s1.answers .height_requirement).isNone)
  match (if pitchOverride then
           allQuestions.find? (fun q => q.attr = .pitch_size && q.attr ∉ s1.asked)
         else none) with
  | some q => some q
  | none =>
    match allQuestions.filter (fun q =>
        q.attr ∉ s1.asked && q.attr ∉ skipList && skipped q.attr < 2) with
    | [] => none
    | q :: rest => some (pyMinBy (fun x => (x.order : ℚ)) q rest)

/-- `select_next_question(skipped_questions)`: the PCB-to-PCB auto-fill
(`pcbAutoFill`) followed by the question choice (`selectChoice`).  Returns
the possibly-mutated state together with the selected question (`none` =
exhausted). -/
def select_next_question (skipped : Attr → ℕ) (s : SelState) :
    SelState × Option Question :=
  (pcbAutoFill s,
   selectChoice skipped (pcbAutoFill s)
     (if isPcbToPcbState s then [.wire_gauge, .location] else [])
     (decide (Attr.height_requirement ∈ s.asked)))

/-- Recording the answer to a selected question: the answer is stored and
the attribute is marked asked. -/
def recordAnswer (s : SelState) (t : Attr) (x : Val × ℚ) : SelState :=
  { answers := setAnswer s.answers t (some x)
    asked := insert t s.asked }

/-- One select-then-answer step of the elicitation loop: `none` when the
selector reports exhaustion, otherwise the state after recording the answer
produced by the oracle `f` (an attribute is never selected twice, so an
answer oracle indexed by the attribute is fully general). -/
def selectorStep (skipped : Attr → ℕ) (f : Attr → Val × ℚ) (s : SelState) :
    Option SelState :=
  match select_next_question skipped s with
  | (_, none) => none
  | (s1, some q) => some (recordAnswer s1 q.attr (f q.attr))

/-- `n` select-then-answer steps; the value `none` means the selector
signalled exhaustion within the first `n` steps. -/
def selectorIter (skipped : Attr → ℕ) (f : Attr → Val × ℚ) :
    ℕ → SelState → Option SelState
  | 0, s => some s
  | n + 1, s =>
    match selectorStep skipped f s with
    | none => none
    | some s2 => selectorIter skipped f n s2

/-- The attributes bound to questions (the question list is fixed; the
selector can only ever propose these). -/
def questionAttrs : Finset Attr :=
  {.connection_types, .location, .housing_material, .mixed_power_signal,
   .pin_count, .height_requirement, .pitch_size, .right_angle,
   .temp_range, .max_current, .wire_gauge}

/-- Number of question attributes not yet asked: the termination measure of
the elicitation loop. -/
def remaining (s : SelState) : ℕ := (questionAttrs \ s.asked).card

/-! ## Totality model of `normalize_awg_value` over raw Python scalars

`Val.num` models only finite floats; to settle totality over all public
inputs the non-finite floats must be representable, since Python `int()`
raises `ValueError` on `nan` and `OverflowError` on infinities. -/

/-- A Python float: finite, not-a-number, or a signed infinity. -/
inductive PyFloat where
  | finite : ℚ → PyFloat
  | nan : PyFloat
  | inf : Bool → PyFloat
deriving DecidableEq, Repr

/-- The public input domain of `normalize_awg_value`: int, float or string. -/
inductive PyScalar where
  | int : ℤ → PyScalar
  | float : PyFloat → PyScalar
  | str : String → PyScalar
deriving DecidableEq, Repr

/-- `normalize_awg_value` over raw Python scalars, with the exceptions the
source can raise made explicit: `int(x)` on a numeric input raises
`ValueError` on `nan` and `OverflowError` on an infinity (neither is caught
by the function); string parsing failures are caught inside the function
and yield `None`. -/
def normalize_awg_value_py : PyScalar → Except String (Option ℤ)
  | .int n => .ok (some n)
  | .float (.finite q) => .ok (some (pyIntTrunc q))
  | .float .nan => .error "ValueError"
  | .float (.inf _) => .error "OverflowError"
  | .str s =>
    let u := strUpper s
    .ok (if strContains u "AWG" then pyParseInt (strReplace u "AWG" "") else none)

/-! ## Named helper quantities for the decision theorems -/

/-- The best (pre-boost) score right after the opening-message recompute. -/
def initialBest (a : Answers) : ℚ := (bestOf (recomputeAll a)).2

/-- The runner-up (pre-boost) score right after the opening-message
recompute. -/
def initialRunnerUp (a : Answers) : ℚ :=
  maxOtherScore (recomputeAll a) (bestOf (recomputeAll a)).1

/-- The best stored score after the `process_answer` score update. -/
def answerBest (a : Answers) (old : Connector → ℚ) : ℚ :=
  (bestOf (processAnswerScores a old)).2

/-- The runner-up stored score after the `process_answer` score update. -/
def answerRunnerUp (a : Answers) (old : Connector → ℚ) : ℚ :=
  maxOtherScore (processAnswerScores a old) (bestOf (processAnswerScores a old)).1

/-! ## Concrete answer sets used by witnesses and counterexamples -/

/-- The empty answers dictionary (a fresh session). -/
def ansEmpty : Answers := fun _ => none

/-- Only a pitch-size answer of 2 mm with confidence 0.9. -/
def ansPitchOnly : Answers := fun t =>
  match t with
  | .pitch_size => some (.num 2, 9/10)
  | _ => none

/-- Metal housing and external mounting, both with confidence 0.9. -/
def ansMetalExternal : Answers := fun t =>
  match t with
  | .housing_material => some (.str "metal", 9/10)
  | .location => some (.str "external", 9/10)
  | _ => none

/-- Plastic housing and external mounting, both with confidence 0.9 (the
state after a housing re-answer overwrites `ansMetalExternal`). -/
def ansPlasticExternal : Answers := fun t =>
  match t with
  | .housing_material => some (.str "plastic", 9/10)
  | .location => some (.str "external", 9/10)
  | _ => none

/-- A high-power requirement and metal housing, both with confidence 0.9:
two answered attributes in total. -/
def ansPowerMetal : Answers := fun t =>
  match t with
  | .mixed_power_signal => some (.bool true, 9/10)
  | .housing_material => some (.str "metal", 9/10)
  | _ => none

/-- A selector state in which the height question was asked and answered
with confidence 0.3 (uncertain), and nothing else. -/
def stateHeightUncertain : SelState :=
  { answers := fun t =>
      match t with
      | .height_requirement => some (.num 4, 3/10)
      | _ => none
    asked := {.height_requirement} }

/-- A skip count of 2 for the pitch question and 0 elsewhere. -/
def skipPitchTwice : Attr → ℕ := fun t =>
  match t with
  | .pitch_size => 2
  | _ => 0

/-! ## Helper lemmas -/

/-- The first argument bounds `pyMax` from below. -/
theorem le_pyMax_left (a b : ℚ) : a ≤ pyMax a b := by
  unfold pyMax
  split_ifs with h
  · exact le_of_lt h
  · exact le_refl a

/-- `pyMax` of two bounded values is bounded. -/
theorem pyMax_le {a b c : ℚ} (ha : a ≤ c) (hb : b ≤ c) : pyMax a b ≤ c := by
  unfold pyMax
  split_ifs <;> assumption

/-- `pyMin` is bounded by its first argument. -/
theorem pyMin_le_left (a b : ℚ) : pyMin a b ≤ a := by
  unfold pyMin
  split_ifs with h
  · exact le_of_lt h
  · exact le_refl a

/-- The clamp floor is positive. -/
theorem minScore_pos (a : Answers) : 0 < minScore a := by
  unfold minScore
  split_ifs <;> norm_num

/-- The clamp floor never exceeds 100. -/
theorem minScore_le_100 (a : Answers) : minScore a ≤ 100 := by
  unfold minScore
  split_ifs <;> norm_num

/-- A Python value equal (in the Python sense) to a string is that string. -/
theorem pyEqVal_str_right {v : Val} {s : String} (h : pyEqVal v (.str s) = true) :
    v = .str s := by
  cases v <;> simp [pyEqVal] at h
  exact congrArg Val.str h

/-- Python `min` over a nonempty list returns one of its elements. -/
theorem pyMinBy_mem {α : Type} (key : α → ℚ) :
    ∀ (l : List α) (x : α), pyMinBy key x l ∈ x :: l := by
  intro l
  induction l with
  | nil => intro x; simp [pyMinBy]
  | cons y ys ih =>
    intro x
    have hstep : pyMinBy key x (y :: ys) =
        pyMinBy key (if key y < key x then y else x) ys := rfl
    rw [hstep]
    rcases List.mem_cons.mp (ih (if key y < key x then y else x)) with h | h
    · rw [h]
      split_ifs
      · exact List.mem_cons_of_mem _ (List.mem_cons_self _ _)
      · exact List.mem_cons_self _ _
    · exact List.mem_cons_of_mem _ (List.mem_cons_of_mem _ h)

/-! ## Claim C1 -/

/-- C1 (counterexample): on the empty answer set, `calculate_connector_score`
returns 0 via the negligible-total-weight short-circuit, strictly below the
applicable `min_score` of 20 — so the claimed range `[min_score, 100]` does
not hold for every attribute-answer map. -/
theorem C1_empty_below_min_score :
    calculate_connector_score (specs Connector.AMM) ansEmpty = 0 ∧
    minScore ansEmpty = 20 ∧
    ¬ (minScore ansEmpty ≤ calculate_connector_score (specs Connector.AMM) ansEmpty) := by
  decide

/-- C1 (amended): `calculate_connector_score` is a function of the candidate
and the answers (hence deterministic), it returns exactly 0 precisely when
the total effective weight is below 0.001 or the material/location
consistency gate short-circuits, and in every other case its value lies in
`[min_score, 100]`. -/
theorem C1_score_range (c : Connector) (a : Answers)
    (_hwt : wellTypedScore a = true) :
    (calculate_connector_score (specs c) a = 0 ↔
      ((scoreLoop (specs c) a).tw < 1/1000 ∨ materialBonusGate (specs c) a = none)) ∧
    (¬ ((scoreLoop (specs c) a).tw < 1/1000 ∨ materialBonusGate (specs c) a = none) →
      minScore a ≤ calculate_connector_score (specs c) a ∧
        calculate_connector_score (specs c) a ≤ 100) := by
  unfold calculate_connector_score
  by_cases h1 : (scoreLoop (specs c) a).tw < 1/1000
  · rw [if_pos h1]
    constructor
    · constructor
      · intro _; exact Or.inl h1
      · intro _; rfl
    · intro hcon
      exact absurd (Or.inl h1) hcon
  · rw [if_neg h1]
    rcases hg : materialBonusGate (specs c) a with _ | bonus
    · constructor
      · constructor
        · intro _; exact Or.inr rfl
        · intro _; rfl
      · intro hcon
        exact absurd (Or.inr rfl) hcon
    · dsimp only
      have hlo : minScore a ≤
          pyMax (minScore a) (pyMin 100 (preClampScore (specs c) a bonus)) :=
        le_pyMax_left _ _
      have hhi : pyMax (minScore a) (pyMin 100 (preClampScore (specs c) a bonus)) ≤ 100 :=
        pyMax_le (minScore_le_100 a) (pyMin_le_left _ _)
      constructor
      · constructor
        · intro h0
          have hpos := minScore_pos a
          rw [h0] at hlo
          exact ((lt_irrefl (0 : ℚ)) (lt_of_lt_of_le hpos hlo)).elim
        · rintro (hc | hc)
          · exact absurd hc h1
          · exact absurd hc (by simp)
      · intro _
        exact ⟨hlo, hhi⟩

/-- C1 (witness for the amended theorem): with only the 2 mm pitch answer,
the DMM score is within `[min_score, 100]`. -/
theorem C1_score_range_witness :
    minScore ansPitchOnly ≤ calculate_connector_score (specs Connector.DMM) ansPitchOnly ∧
    calculate_connector_score (specs Connector.DMM) ansPitchOnly ≤ 100 :=
  (C1_score_range Connector.DMM ansPitchOnly (by decide)).2 (by decide)

/-! ## Claim C2 -/

/-- C2: when both `housing_material` and `location` are present in the
answers, a material-bucket mismatch between the required value and the
candidate makes `calculate_connector_score` return exactly 0 regardless of
every other answered attribute, and raw equality of the two materials
yields the consistency bonus 1.1 — or 1.2 for a metal housing with a
panel-mount location. -/
theorem C2_material_consistency (c : Connector) (a : Answers) (v : Val)
    (conf : ℚ) (lv : Val) (lconf : ℚ) (_hwt : wellTypedScore a = true)
    (hm : a .housing_material = some (v, conf))
    (hl : a .location = some (lv, lconf)) :
    (gateBucket v ≠ gateBucketConn (specs c) →
      calculate_connector_score (specs c) a = 0) ∧
    (pyEqVal v (.str (specs c).housing_material) = true →
      materialBonusGate (specs c) a =
        some (if pyEqVal v (.str "metal") && isPanelMountLoc lv then 6/5 else 11/10)) := by
  constructor
  · intro hne
    have hg : materialBonusGate (specs c) a = none := by
      unfold materialBonusGate
      rw [hm, hl]
      dsimp only
      rw [if_pos hne]
    unfold calculate_connector_score
    by_cases h1 : (scoreLoop (specs c) a).tw < 1/1000
    · rw [if_pos h1]
    · rw [if_neg h1, hg]
  · intro heq
    have hv : v = .str (specs c).housing_material := pyEqVal_str_right heq
    have hbk : ¬ (gateBucket v ≠ gateBucketConn (specs c)) := by
      rw [hv]
      unfold gateBucket gateBucketConn
      simp
    unfold materialBonusGate
    rw [hm, hl]
    dsimp only
    rw [if_neg hbk, if_pos heq]

/-- C2 (witness): a required metal housing zeroes the plastic-housed AMM
outright, and on the metal-housed DMM with an external location the gate
yields the 1.2 bonus. -/
theorem C2_material_consistency_witness :
    calculate_connector_score (specs Connector.AMM) ansMetalExternal = 0 ∧
    materialBonusGate (specs Connector.DMM) ansMetalExternal = some (6/5) := by
  constructor
  · exact (C2_material_consistency Connector.AMM ansMetalExternal
      (.str "metal") (9/10) (.str "external") (9/10)
      (by decide) rfl rfl).1 (by decide)
  · have h := (C2_material_consistency Connector.DMM ansMetalExternal
      (.str "metal") (9/10) (.str "external") (9/10)
      (by decide) rfl rfl).2 (by decide)
    rw [h]
    decide

/-! ## Claim C3 -/

/-- C3 (counterexample): after the opening message "metal housing, external
mount" the stored AMM score is 0, and a follow-up answer changing the
housing to plastic leaves the AMM stored score at 0 (the update loop skips
zero-scored candidates while `housing_material` is answered), while
`calculate_connector_score` on the current answers yields a different
value — so the stored map does not always equal the scoring function. -/
theorem C3_stale_zero_score :
    processAnswerScores ansPlasticExternal (recomputeAll ansMetalExternal)
        Connector.AMM ≠
      calculate_connector_score (specs Connector.AMM) ansPlasticExternal := by
  decide

/-- C3 (amended): after a follow-up answer each candidate's stored score
equals `calculate_connector_score` on the current answers, except that a
candidate whose stored score is 0 while `housing_material` is answered
keeps its stored 0; after the opening message each stored score equals
`calculate_connector_score` plus a flat 15 for each connector family name
mentioned in the message. -/
theorem C3_score_update_rule (a : Answers) (old : Connector → ℚ)
    (c : Connector) (msg : String) :
    (processAnswerScores a old c = calculate_connector_score (specs c) a ∨
      ((a .housing_material).isSome = true ∧ old c = 0 ∧
        processAnswerScores a old c = old c)) ∧
    updateScoresInitial a msg c =
      calculate_connector_score (specs c) a +
        (if mentionsConnector msg c then 15 else 0) := by
  refine ⟨?_, rfl⟩
  unfold processAnswerScores
  by_cases h : (a .housing_material).isSome ∧ old c = 0
  · right
    exact ⟨h.1, h.2, if_pos h⟩
  · left
    exact if_neg h

/-! ## Claim C4 -/

/-- C4 (counterexample): with only `mixed_power_signal` and
`housing_material` answered (2 attributes in total), the opening-message
decision already commits to the DMM — the 3-answered-attributes minimum of
the claim is not checked on that path. -/
theorem C4_commit_with_two_answers :
    initialDecision ansPowerMetal = .recommend Connector.DMM 100 ∧
    countAnswered ansPowerMetal = 2 := by
  decide

/-- C4 (amended): right after the opening message, a recommendation is
committed exactly when both critical attributes are present with
confidence at least 0.7, the best pre-boost score is at least 57 and its
lead exceeds 25 (with no minimum on the number of answered attributes);
after a follow-up answer, exactly when the best score is at least 75, the
lead exceeds 15, both critical questions are in the asked set, and at
least 3 questions have been asked. -/
theorem C4_commit_conditions (a : Answers) (asked : Finset Attr)
    (old : Connector → ℚ) :
    (initialDecision a ≠ .continueAsking ↔
      (criticalMet a = true ∧ 57 ≤ initialBest a ∧
        initialBest a - initialRunnerUp a > 25)) ∧
    (answerDecision a asked old ≠ .continueAsking ↔
      (75 ≤ answerBest a old ∧ answerBest a old - answerRunnerUp a old > 15 ∧
        Attr.mixed_power_signal ∈ asked ∧ Attr.housing_material ∈ asked ∧
        3 ≤ asked.card)) := by
  constructor
  · simp only [initialDecision, initialBest, initialRunnerUp]
    split_ifs with h
    · simpa using h
    · simpa using h
  · simp only [answerDecision, answerBest, answerRunnerUp]
    split_ifs with h
    · simpa using h
    · simpa using h

/-! ## Claim C5 -/

/-- C5: for every candidate, a `wire_gauge` answer whose normalised gauge
is absent from the candidate's supported list scores 0.0 and flags a
critical mismatch (regardless of any other answered attribute, since the
attribute score depends only on this value); a gauge in the supported list
scores 1.0 with no flag. -/
theorem C5_wire_gauge_membership (c : Connector) (v : Val) (g : ℤ)
    (hn : normalize_awg_value v = some g) :
    (g ∉ supportedAwgs (specs c) →
      attrScoreFor .wire_gauge (specs c) v = ⟨0, true, [.awgUnsupported]⟩) ∧
    (g ∈ supportedAwgs (specs c) →
      attrScoreFor .wire_gauge (specs c) v = ⟨1, false, []⟩) := by
  constructor
  · intro hmem
    show wireGaugeScore (specs c) v = _
    unfold wireGaugeScore
    rw [hn]
    dsimp only
    rw [if_neg (fun hand => hmem hand.2)]
  · intro hmem
    show wireGaugeScore (specs c) v = _
    unfold wireGaugeScore
    rw [hn]
    dsimp only
    rw [if_pos ⟨List.ne_nil_of_mem hmem, hmem⟩]

/-- C5 (witness): AWG12 is unsupported by the AMM (score 0, critical);
AWG26 is supported (score 1). -/
theorem C5_wire_gauge_membership_witness :
    attrScoreFor .wire_gauge (specs Connector.AMM) (.str "AWG12") =
      ⟨0, true, [.awgUnsupported]⟩ ∧
    attrScoreFor .wire_gauge (specs Connector.AMM) (.str "AWG26") =
      ⟨1, false, []⟩ :=
  ⟨(C5_wire_gauge_membership Connector.AMM (.str "AWG12") 12 (by decide)).1
      (by decide),
   (C5_wire_gauge_membership Connector.AMM (.str "AWG26") 26 (by decide)).2
      (by decide)⟩

/-! ## Claim C6 -/

/-- C6: for every catalog candidate, a pin-count answer exactly at the
candidate's documented maximum scores at least 0.8 (in fact 1.0, as every
maximum is a valid count), while one above the maximum scores 0 and flags
the pin-count critical mismatch. -/
theorem C6_pin_count_boundary :
    ∀ c : Connector,
      4/5 ≤ (attrScoreFor .pin_count (specs c)
        (.num ((specs c).max_pins : ℚ))).score ∧
      attrScoreFor .pin_count (specs c) (.num (((specs c).max_pins : ℚ) + 1)) =
        ⟨0, true, [.pinExceedsMax]⟩ := by
  decide

/-! ## Claim C7 -/

/-- C7: `generate_recommendation` produces the contact/escalation outcome
exactly when the leading score is below 22, or there are more than 3
unconfirmed-feature mismatches alongside a leading score below 22;
otherwise it commits to the leading candidate. -/
theorem C7_escalation_rule (scores : Connector → ℚ) (a : Answers)
    (_hwt : wellTypedRec a = true) :
    (generateRecommendationOutcome scores a = .contact ↔
      ((bestOf scores).2 < 22 ∨
        (3 < unconfirmedCount (specs (bestOf scores).1) a ∧
          (bestOf scores).2 < 22))) ∧
    (generateRecommendationOutcome scores a ≠ .contact →
      generateRecommendationOutcome scores a = .recommend (bestOf scores).1) := by
  simp only [generateRecommendationOutcome]
  split_ifs with h
  · simp [h]
  · simp [h]

/-- C7 (witness): a uniform score of 10 (below 22) escalates to contact. -/
theorem C7_escalation_rule_witness :
    generateRecommendationOutcome (fun _ => 10) ansEmpty = .contact :=
  (C7_escalation_rule (fun _ => 10) ansEmpty (by decide)).1.mpr
    (Or.inl (by decide))

/-! ## Claim C8 -/

/-- The wire-gauge auto-fill only ever adds to the asked set. -/
theorem pcbWireFill_asked_subset (s : SelState) :
    s.asked ⊆ (pcbWireFill s).asked := by
  unfold pcbWireFill
  split_ifs
  · exact Finset.Subset.refl _
  · exact Finset.subset_insert _ _

/-- The location auto-fill only ever adds to the asked set. -/
theorem pcbLocFill_asked_subset (s : SelState) :
    s.asked ⊆ (pcbLocFill s).asked := by
  unfold pcbLocFill
  split_ifs
  · exact Finset.Subset.refl _
  · exact Finset.subset_insert _ _

/-- The PCB-to-PCB auto-fill only ever adds to the asked set. -/
theorem pcbAutoFill_asked_subset (s : SelState) :
    s.asked ⊆ (pcbAutoFill s).asked := by
  unfold pcbAutoFill
  split_ifs
  · exact (pcbWireFill_asked_subset s).trans
      (pcbLocFill_asked_subset (pcbWireFill s))
  · exact Finset.Subset.refl _

/-- Every question's attribute is a question attribute. -/
theorem allQuestions_attr_mem :
    ∀ q ∈ allQuestions, q.attr ∈ questionAttrs := by
  decide

/-- A question chosen by `selectChoice` is a catalog question whose
attribute has not been asked in the state the choice ran on. -/
theorem selectChoice_some {skipped : Attr → ℕ} {s1 : SelState}
    {skipList : List Attr} {hA : Bool} {q : Question}
    (h : selectChoice skipped s1 skipList hA = some q) :
    q ∈ allQuestions ∧ q.attr ∉ s1.asked := by
  unfold selectChoice at h
  dsimp only at h
  split at h
  · rename_i q0 hfind
    split at hfind
    · cases h
      have hpred := List.find?_some hfind
      have hmemq := List.mem_of_find?_eq_some hfind
      simp only [Bool.and_eq_true, decide_eq_true_eq] at hpred
      exact ⟨hmemq, by simpa using hpred.2⟩
    · cases hfind
  · split at h
    · cases h
    · rename_i q0 rest hfilter
      cases h
      have hmem : pyMinBy (fun x => (x.order : ℚ)) q0 rest ∈ q0 :: rest :=
        pyMinBy_mem _ rest q0
      rw [← hfilter] at hmem
      have := List.mem_filter.mp hmem
      refine ⟨this.1, ?_⟩
      have hp := this.2
      simp only [Bool.and_eq_true, decide_eq_true_eq] at hp
      exact hp.1.1

/-- Answering a freshly selected question strictly shrinks the set of
unasked question attributes. -/
theorem remaining_record_lt {skipped : Attr → ℕ} {s s1 : SelState}
    {q : Question} (x : Val × ℚ)
    (hsel : select_next_question skipped s = (s1, some q)) :
    remaining (recordAnswer s1 q.attr x) < remaining s := by
  have hs1 : s1 = pcbAutoFill s := by
    have := congrArg Prod.fst hsel
    exact this.symm
  have hq : selectChoice skipped (pcbAutoFill s)
      (if isPcbToPcbState s then [.wire_gauge, .location] else [])
      (decide (Attr.height_requirement ∈ s.asked)) = some q := by
    have := congrArg Prod.snd hsel
    exact this
  obtain ⟨hqmem, hqnot⟩ := selectChoice_some hq
  have hsub : s.asked ⊆ s1.asked := by
    rw [hs1]; exact pcbAutoFill_asked_subset s
  have hattr : q.attr ∈ questionAttrs := allQuestions_attr_mem q hqmem
  have hnot : q.attr ∉ s.asked := by
    intro hmem
    rw [← hs1] at hqnot
    exact hqnot (hsub hmem)
  have hsdiff : questionAttrs \ (recordAnswer s1 q.attr x).asked ⊆
      (questionAttrs \ s.asked).erase q.attr := by
    intro t ht
    rw [Finset.mem_sdiff] at ht
    obtain ⟨htq, htnot⟩ := ht
    have : t ∉ insert q.attr s1.asked := htnot
    rw [Finset.mem_insert] at this
    push_neg at this
    refine Finset.mem_erase.mpr ⟨this.1, Finset.mem_sdiff.mpr ⟨htq, ?_⟩⟩
    intro hts
    exact this.2 (hsub hts)
  have hmem2 : q.attr ∈ questionAttrs \ s.asked :=
    Finset.mem_sdiff.mpr ⟨hattr, hnot⟩
  calc remaining (recordAnswer s1 q.attr x)
      ≤ ((questionAttrs \ s.asked).erase q.attr).card :=
        Finset.card_le_card hsdiff
    _ < (questionAttrs \ s.asked).card := Finset.card_erase_lt_of_mem hmem2
    _ = remaining s := rfl

/-- When the measure bound is `k`, the selector signals exhaustion within
`k + 1` select-then-answer steps. -/
theorem selector_reaches_none (k : ℕ) :
    ∀ (skipped : Attr → ℕ) (f : Attr → Val × ℚ) (s : SelState),
      remaining s ≤ k →
        ∃ n, n ≤ k + 1 ∧ selectorIter skipped f n s = none := by
  induction k with
  | zero =>
    intro skipped f s hs
    rcases hsel : select_next_question skipped s with ⟨s1, oq⟩
    cases oq with
    | none =>
      refine ⟨1, le_refl 1, ?_⟩
      show (match selectorStep skipped f s with
            | none => none
            | some s2 => selectorIter skipped f 0 s2) = none
      unfold selectorStep
      rw [hsel]
    | some q =>
      have := remaining_record_lt (f q.attr) hsel
      omega
  | succ k ih =>
    intro skipped f s hs
    rcases hsel : select_next_question skipped s with ⟨s1, oq⟩
    cases oq with
    | none =>
      refine ⟨1, by omega, ?_⟩
      show (match selectorStep skipped f s with
            | none => none
            | some s2 => selectorIter skipped f 0 s2) = none
      unfold selectorStep
      rw [hsel]
    | some q =>
      have hlt := remaining_record_lt (f q.attr) hsel
      obtain ⟨m, hm, hiter⟩ :=
        ih skipped f (recordAnswer s1 q.attr (f q.attr)) (by omega)
      refine ⟨m + 1, by omega, ?_⟩
      show (match selectorStep skipped f s with
            | none => none
            | some s2 => selectorIter skipped f m s2) = none
      have hstep : selectorStep skipped f s =
          some (recordAnswer s1 q.attr (f q.attr)) := by
        unfold selectorStep
        rw [hsel]
      rw [hstep]
      exact hiter

/-- C8 (counterexample): with the height question asked and answered with
low confidence, the pitch-prioritisation override selects the pitch
question even though its skip count is already 2 — so a question skipped 2
or more times can still be eligible. -/
theorem C8_skip_cap_bypassed :
    (select_next_question skipPitchTwice stateHeightUncertain).2.map
        (fun q => q.attr) = some .pitch_size ∧
    skipPitchTwice .pitch_size = 2 := by
  decide

/-- C8 (amended): from any selector state, any skip counts and any answers,
repeatedly selecting the next question and recording an answer for it
reaches the exhausted state within 12 steps: the asked set only grows and
the question list is fixed and finite (the skip cap applies to the
standard selection, but the pitch-prioritisation override ignores it). -/
theorem C8_selector_terminates (skipped : Attr → ℕ) (f : Attr → Val × ℚ)
    (s : SelState) :
    ∃ n, n ≤ 12 ∧ selectorIter skipped f n s = none := by
  have hb : remaining s ≤ 11 := by
    have h1 : (questionAttrs \ s.asked).card ≤ questionAttrs.card :=
      Finset.card_le_card (Finset.sdiff_subset)
    have h2 : questionAttrs.card = 11 := by decide
    unfold remaining
    omega
  exact selector_reaches_none 11 skipped f s hb

/-! ## Claim C9 -/

/-- C9: when the opening message mentions a connector family name, a flat
15.0 is added to that connector's stored score after the full recompute
with no re-clamping; concretely, with only the 2 mm pitch answer and a
message mentioning "DMM", the stored DMM score is 115 — above both the
100-point cap and the scoring function's own output of 100. -/
theorem C9_name_mention_boost :
    (∀ (a : Answers) (msg : String) (c : Connector),
      mentionsConnector msg c = true →
        updateScoresInitial a msg c =
          calculate_connector_score (specs c) a + 15) ∧
    updateScoresInitial ansPitchOnly "I would like a DMM" Connector.DMM = 115 ∧
    calculate_connector_score (specs Connector.DMM) ansPitchOnly = 100 := by
  refine ⟨?_, by decide, by decide⟩
  intro a msg c h
  unfold updateScoresInitial recomputeAll
  rw [if_pos h]

/-- C9 (witness): the boost equation applied at the concrete message. -/
theorem C9_name_mention_boost_witness :
    updateScoresInitial ansPitchOnly "I would like a DMM" Connector.DMM =
      calculate_connector_score (specs Connector.DMM) ansPitchOnly + 15 :=
  C9_name_mention_boost.1 ansPitchOnly "I would like a DMM" Connector.DMM
    (by decide)

/-! ## Claim C10 -/

/-- C10 (counterexample): `normalize_awg_value` applied to the float `nan`
raises `ValueError` (from `int(nan)`) instead of returning an integer or
`None` — the function is not total over all float inputs. -/
theorem C10_nan_raises :
    normalize_awg_value_py (.float .nan) = .error "ValueError" := rfl

/-- C10 (amended): `normalize_awg_value` returns without raising on every
int, every finite float and every string; non-finite floats raise out of
`int()`.  A string input returns an integer exactly when its upper-casing
contains `AWG` and removing every `AWG` occurrence leaves a string that
Python `int()` accepts. -/
theorem C10_normalize_totality :
    (∀ n : ℤ, normalize_awg_value_py (.int n) = .ok (some n)) ∧
    (∀ q : ℚ, normalize_awg_value_py (.float (.finite q)) =
      .ok (some (pyIntTrunc q))) ∧
    (∀ s : String, ∃ r, normalize_awg_value_py (.str s) = .ok r) ∧
    (∀ (s : String) (k : ℤ),
      normalize_awg_value_py (.str s) = .ok (some k) ↔
        (strContains (strUpper s) "AWG" = true ∧
          pyParseInt (strReplace (strUpper s) "AWG" "") = some k)) := by
  refine ⟨fun n => rfl, fun q => rfl, fun s => ⟨_, rfl⟩, fun s k => ?_⟩
  unfold normalize_awg_value_py
  dsimp only
  by_cases h : strContains (strUpper s) "AWG" = true
  · rw [if_pos h]
    constructor
    · intro hok
      exact ⟨h, Except.ok.inj hok⟩
    · intro ⟨_, hp⟩
      rw [hp]
  · rw [if_neg h]
    constructor
    · intro hok
      exact absurd (Except.ok.inj hok) (by simp)
    · intro ⟨hc, _⟩
      exact absurd hc h

end NicoMate
